import Mathlib

/-!
Shallow embedding of the rule-based recommendation engine of
`src/soil_app.py` (functions `calculate_recommendations` and
`estimate_cost`), with numeric values modelled as rationals.
-/

namespace SoilApp

/-- Python's substring test `pat in s`, on lists of characters:
`leadMatch pat s` holds when `pat` is a leading segment of `s`. -/
def leadMatch : List Char → List Char → Bool
  | [], _ => true
  | _ :: _, [] => false
  | a :: as, b :: bs => a == b && leadMatch as bs

/-- `subOccurs pat s` holds when `pat` occurs contiguously inside `s`. -/
def subOccurs (pat : List Char) : List Char → Bool
  | [] => leadMatch pat []
  | c :: rest => leadMatch pat (c :: rest) || subOccurs pat rest

/-- Python's `pat in s` for strings. -/
def pyIn (pat s : String) : Bool :=
  subOccurs pat.toList s.toList

/-- Untreated-soil baseline strength, `base_strength = 0.225` MPa in the source. -/
def base_strength : ℚ := 0.225

/-- RULE 1 of `calculate_recommendations`: primary method and initial dosages
from soil texture (`"Clay" in soil_type or clay > 40`, then
`"Sand" in soil_type or sand > 60`, else silt/mixed). -/
def classify (clay sand : ℚ) (soil_type : String) : String × ℚ × ℚ :=
  if pyIn "Clay" soil_type ∨ clay > 40 then ("Mycelium", 5.0, 0.5)
  else if pyIn "Sand" soil_type ∨ sand > 60 then ("MICP", 25.0, 2.0)
  else ("Hybrid", 15.0, 1.0)

/-- RULE 2 of `calculate_recommendations`: moisture adjustment
(`if moisture > 25: myc *= 0.8 elif moisture < 10: micp *= 1.2`). -/
def adjustMoisture (myc micp moisture : ℚ) : ℚ × ℚ :=
  if moisture > 25 then (myc * 0.8, micp)
  else if moisture < 10 then (myc, micp * 1.2)
  else (myc, micp)

/-- RULE 3 of `calculate_recommendations`: pH adjustment
(`if 6.5 <= ph <= 8.5: micp *= 1.3`). -/
def adjustPh (myc micp ph : ℚ) : ℚ × ℚ :=
  if 6.5 ≤ ph ∧ ph ≤ 8.5 then (myc, micp * 1.3) else (myc, micp)

/-- RULES 1-4 combined: the dosage pair `(myc_percentage, micp_percentage)`
after base classification, moisture, pH, and curing adjustments
(`curing_factor = curing_days / 28` multiplies both dosages). -/
def adjustedDosages (clay sand moisture ph : ℚ) (soil_type : String)
    (curing_days : ℚ) : ℚ × ℚ :=
  let b := classify clay sand soil_type
  let d := adjustMoisture b.2.1 b.2.2 moisture
  let d2 := adjustPh d.1 d.2 ph
  (d2.1 * (curing_days / 28), d2.2 * (curing_days / 28))

/-- Mycelium empirical strength formula of the source. -/
def myc_strength (myc_percentage : ℚ) : ℚ :=
  base_strength * (1 + myc_percentage * 0.04)

/-- MICP empirical strength formula of the source. -/
def micp_strength (micp_percentage : ℚ) : ℚ :=
  base_strength * (1 + micp_percentage * 0.8)

/-- Hybrid empirical strength formula of the source (synergy factor 1.2). -/
def hybrid_strength (myc_percentage micp_percentage : ℚ) : ℚ :=
  base_strength * (1 + myc_percentage * 0.02 + micp_percentage * 0.6) * 1.2

/-- Python's two-argument `max`, written with an explicit comparison so that
it is kernel-computable on `ℚ`; `pyMax_eq_max` shows it agrees with `max`. -/
def pyMax (a b : ℚ) : ℚ := if b > a then b else a

/-- Output record of `calculate_recommendations` (the dict returned in the
source, minus the redundant key ordering). -/
structure Recommendation where
  primary_method : String
  final_method : String
  final_strength : ℚ
  myc_percentage : ℚ
  micp_percentage : ℚ
  improvement : ℚ
  base_strength : ℚ
  myc_strength : ℚ
  micp_strength : ℚ
  hybrid_strength : ℚ
  deriving Repr, DecidableEq

/-- The rule-based recommendation engine `calculate_recommendations` of
`src/soil_app.py`, transcribed stage by stage. `silt` and `pi` are accepted
but unused, exactly as in the source (the caller passes
`sand = 100 - clay - silt`). -/
def calculate_recommendations (clay silt sand moisture pi ph : ℚ)
    (soil_type : String) (curing_days : ℚ) : Recommendation :=
  let d := adjustedDosages clay sand moisture ph soil_type curing_days
  let ms := myc_strength d.1
  let cs := micp_strength d.2
  let hs := hybrid_strength d.1 d.2
  let max_strength := pyMax (pyMax ms cs) hs
  let sel : String × ℚ × ℚ × ℚ :=
    if max_strength = hs ∧ (ms > 0.3 ∨ cs > 0.3) then
      ("Hybrid", hs, d.1, d.2)
    else if ms > cs then
      ("Mycelium", ms, d.1, 0)
    else
      ("MICP", cs, 0, d.2)
  { primary_method := (classify clay sand soil_type).1
    final_method := sel.1
    final_strength := sel.2.1
    myc_percentage := sel.2.2.1
    micp_percentage := sel.2.2.2
    improvement := (sel.2.1 - base_strength) / base_strength * 100
    base_strength := base_strength
    myc_strength := ms
    micp_strength := cs
    hybrid_strength := hs }

/-- Cost estimation `estimate_cost` of `src/soil_app.py`: the dict lookup
`base_cost.get(budget_level, 100)` becomes a chain of equality tests with
default 100; the method `if/elif` chain has no `else`, so an unknown method
adds nothing. -/
def estimate_cost (method : String) (myc_pct micp_pct : ℚ)
    (budget_level : String) : ℚ :=
  let cost : ℚ :=
    if budget_level = "Low" then 50
    else if budget_level = "Medium" then 100
    else if budget_level = "High" then 200
    else if budget_level = "No Limit" then 300
    else 100
  if method = "Mycelium" then cost + myc_pct * 2
  else if method = "MICP" then cost + micp_pct * 10
  else if method = "Hybrid" then cost + (myc_pct * 1.5 + micp_pct * 8)
  else cost

/-- Rounding to 2 decimal places, following the spec's words ("Round to 2
decimal places for display"); used only to compare the spec's description of
`estimate_cost` with the source, which returns `cost` unrounded. -/
def round2 (q : ℚ) : ℚ := (round (q * 100) : ℚ) / 100

/-- Division with an explicit zero-denominator error branch, modelling the
only operation of `calculate_recommendations` that could raise a Python
`ZeroDivisionError`. -/
def safeDiv (a b : ℚ) : Option ℚ :=
  if b = 0 then none else some (a / b)

/-- `calculate_recommendations` with each division guarded: the two
divisions of the source (by the constant 28 and by `base_strength = 0.225`)
return `none` on a zero denominator instead of a value; every other
operation of the source (comparisons, substring tests, max, arithmetic) is
total. -/
def calculate_recommendations_checked (clay silt sand moisture pi ph : ℚ)
    (soil_type : String) (curing_days : ℚ) : Option Recommendation :=
  (safeDiv curing_days 28).bind fun curing_factor =>
    let b := classify clay sand soil_type
    let d := adjustMoisture b.2.1 b.2.2 moisture
    let d2 := adjustPh d.1 d.2 ph
    let myc_pct := d2.1 * curing_factor
    let micp_pct := d2.2 * curing_factor
    let ms := myc_strength myc_pct
    let cs := micp_strength micp_pct
    let hs := hybrid_strength myc_pct micp_pct
    let max_strength := pyMax (pyMax ms cs) hs
    let sel : String × ℚ × ℚ × ℚ :=
      if max_strength = hs ∧ (ms > 0.3 ∨ cs > 0.3) then ("Hybrid", hs, myc_pct, micp_pct)
      else if ms > cs then ("Mycelium", ms, myc_pct, 0)
      else ("MICP", cs, 0, micp_pct)
    (safeDiv (sel.2.1 - base_strength) base_strength).bind fun rel =>
      some { primary_method := b.1
             final_method := sel.1
             final_strength := sel.2.1
             myc_percentage := sel.2.2.1
             micp_percentage := sel.2.2.2
             improvement := rel * 100
             base_strength := base_strength
             myc_strength := ms
             micp_strength := cs
             hybrid_strength := hs }

/-- The Python `max` model agrees with the order-theoretic `max` on `ℚ`. -/
theorem pyMax_eq_max (a b : ℚ) : pyMax a b = max a b := by
  rcases le_or_lt b a with h | h
  · simp [pyMax, not_lt.mpr h, max_eq_left h]
  · simp [pyMax, h, max_eq_right h.le]

/-- C1 (counterexample): at clay=58, silt=42, sand=0, moisture=13, pi=12,
ph=5, soil type "CH (Fat Clay)" and curing_days=3, the hybrid candidate is
the strict maximum of the three candidate strengths but neither single-method
strength exceeds 0.3 MPa, so the code falls through to the MICP branch and
returns the MICP strength (1314/5600 MPa), not the maximum of the three
candidates (1971/7000 MPa). -/
theorem final_strength_not_always_max :
    (calculate_recommendations 58 42 0 13 12 5 "CH (Fat Clay)" 3).final_strength ≠
      max (max (calculate_recommendations 58 42 0 13 12 5 "CH (Fat Clay)" 3).myc_strength
          (calculate_recommendations 58 42 0 13 12 5 "CH (Fat Clay)" 3).micp_strength)
        (calculate_recommendations 58 42 0 13 12 5 "CH (Fat Clay)" 3).hybrid_strength := by
  norm_num [calculate_recommendations, adjustedDosages, classify, adjustMoisture,
    adjustPh, myc_strength, micp_strength, hybrid_strength, base_strength, pyMax,
    max_def, show pyIn "Clay" "CH (Fat Clay)" = true from by decide]

/-- C1 (amended): the returned predicted strength `final_strength` equals the
maximum of the three candidate strengths whenever the hybrid candidate is
(weakly) the maximum and at least one single-method strength exceeds 0.3 MPa;
otherwise it equals the maximum of the two single-method strengths alone
(which is smaller than the maximum of all three exactly when the hybrid
candidate wins strictly with both single strengths at most 0.3 MPa). -/
theorem final_strength_selection_amended (clay silt sand moisture pi ph : ℚ)
    (soil_type : String) (curing_days : ℚ) :
    (calculate_recommendations clay silt sand moisture pi ph soil_type
        curing_days).final_strength =
      if ((calculate_recommendations clay silt sand moisture pi ph soil_type
              curing_days).myc_strength ≤
            (calculate_recommendations clay silt sand moisture pi ph soil_type
              curing_days).hybrid_strength ∧
          (calculate_recommendations clay silt sand moisture pi ph soil_type
              curing_days).micp_strength ≤
            (calculate_recommendations clay silt sand moisture pi ph soil_type
              curing_days).hybrid_strength) ∧
          (0.3 < (calculate_recommendations clay silt sand moisture pi ph soil_type
              curing_days).myc_strength ∨
            0.3 < (calculate_recommendations clay silt sand moisture pi ph soil_type
              curing_days).micp_strength) then
        max (max (calculate_recommendations clay silt sand moisture pi ph soil_type
              curing_days).myc_strength
            (calculate_recommendations clay silt sand moisture pi ph soil_type
              curing_days).micp_strength)
          (calculate_recommendations clay silt sand moisture pi ph soil_type
            curing_days).hybrid_strength
      else
        max (calculate_recommendations clay silt sand moisture pi ph soil_type
            curing_days).myc_strength
          (calculate_recommendations clay silt sand moisture pi ph soil_type
            curing_days).micp_strength := by
  simp only [calculate_recommendations, pyMax_eq_max, gt_iff_lt,
    max_eq_right_iff, max_le_iff]
  split_ifs with h h2
  · exact (max_eq_right (max_le h.1.1 h.1.2)).symm
  · exact (max_eq_left h2.le).symm
  · exact (max_eq_right (not_lt.mp h2)).symm

/-- C2: with `sand = 100 - clay - silt`, the base classification picks
Mycelium with initial dosages (5.0, 0.5) when the label contains "Clay" or
clay > 40; otherwise MICP with (25.0, 2.0) when the label contains "Sand" or
sand > 60; otherwise Hybrid with (15.0, 1.0). In particular clay=10, silt=20
(sand=70) with soil type "SP" gives primary method MICP, and clay=30,
silt=40 (sand=30) with the marker-free label "ML (Silt)" gives Hybrid. -/
theorem primary_classification (clay silt moisture pi ph : ℚ)
    (soil_type : String) (curing_days : ℚ) :
    ((calculate_recommendations clay silt (100 - clay - silt) moisture pi ph
        soil_type curing_days).primary_method =
      if pyIn "Clay" soil_type ∨ clay > 40 then "Mycelium"
      else if pyIn "Sand" soil_type ∨ 100 - clay - silt > 60 then "MICP"
      else "Hybrid") ∧
    ((classify clay (100 - clay - silt) soil_type).2 =
      if pyIn "Clay" soil_type ∨ clay > 40 then ((5.0 : ℚ), (0.5 : ℚ))
      else if pyIn "Sand" soil_type ∨ 100 - clay - silt > 60 then (25.0, 2.0)
      else (15.0, 1.0)) ∧
    (calculate_recommendations 10 20 70 moisture pi ph "SP"
        curing_days).primary_method = "MICP" ∧
    (calculate_recommendations 30 40 30 moisture pi ph "ML (Silt)"
        curing_days).primary_method = "Hybrid" := by
  refine ⟨?_, ?_, ?_, ?_⟩
  · simp only [calculate_recommendations, classify]
    split_ifs <;> rfl
  · simp only [classify]
    split_ifs <;> rfl
  · norm_num [calculate_recommendations, classify,
      show pyIn "Clay" "SP" = false from by decide,
      show pyIn "Sand" "SP" = false from by decide]
  · norm_num [calculate_recommendations, classify,
      show pyIn "Clay" "ML (Silt)" = false from by decide,
      show pyIn "Sand" "ML (Silt)" = false from by decide]

/-- C4: the adjusted dosage pair equals the base-classification dosages
multiplied by exactly these factors, in this order: mycelium by 0.8 iff
moisture > 25 (25 itself does not trigger), MICP by 1.2 iff moisture < 10,
MICP by 1.3 iff 6.5 ≤ ph ≤ 8.5 (bounds inclusive), and finally both by
curing_days / 28. The source's `elif` for the moisture rule agrees with the
two independent factors because moisture > 25 and moisture < 10 exclude each
other. -/
theorem dosage_adjustment_pipeline (clay sand moisture ph : ℚ)
    (soil_type : String) (curing_days : ℚ) :
    adjustedDosages clay sand moisture ph soil_type curing_days =
      ((classify clay sand soil_type).2.1 *
          (if moisture > 25 then 0.8 else 1) * (curing_days / 28),
        (classify clay sand soil_type).2.2 *
          (if moisture < 10 then 1.2 else 1) *
          (if 6.5 ≤ ph ∧ ph ≤ 8.5 then 1.3 else 1) * (curing_days / 28)) := by
  simp only [adjustedDosages, adjustMoisture, adjustPh]
  split_ifs <;>
    first
    | (exfalso; linarith)
    | (simp only [Prod.mk.injEq]; constructor <;> ring_nf)

/-- Helper for C3: for positive curing time the two single-method candidate
strengths are never equal, whatever the branch taken, because the Mycelium
slope 0.04 times each possible mycelium dosage never matches the MICP slope
0.8 times the paired MICP dosage. -/
theorem strengths_distinct (clay sand moisture ph : ℚ) (soil_type : String)
    (curing_days : ℚ) (h : 0 < curing_days) :
    myc_strength (adjustedDosages clay sand moisture ph soil_type curing_days).1 ≠
      micp_strength (adjustedDosages clay sand moisture ph soil_type curing_days).2 := by
  simp only [adjustedDosages, classify, adjustMoisture, adjustPh,
    myc_strength, micp_strength, base_strength]
  split_ifs <;> intro hEq <;> nlinarith [hEq, h]

/-- C3: the final method is Hybrid exactly when the hybrid candidate is the
(weak) maximum of the three candidate strengths and at least one
single-method strength exceeds 0.3 MPa; in that case both adjusted dosages
are retained in the output. Otherwise the final method is whichever of
Mycelium/MICP has the strictly higher single-method strength (a tie being
impossible for positive curing time), with the unused method's dosage
zeroed. -/
theorem final_method_selection (clay silt sand moisture pi ph : ℚ)
    (st : String) (cd : ℚ) (h : 0 < cd) :
    ((calculate_recommendations clay silt sand moisture pi ph st cd).final_method =
        "Hybrid" ↔
      ((calculate_recommendations clay silt sand moisture pi ph st cd).myc_strength ≤
          (calculate_recommendations clay silt sand moisture pi ph st cd).hybrid_strength ∧
        (calculate_recommendations clay silt sand moisture pi ph st cd).micp_strength ≤
          (calculate_recommendations clay silt sand moisture pi ph st cd).hybrid_strength) ∧
        (0.3 < (calculate_recommendations clay silt sand moisture pi ph st cd).myc_strength ∨
          0.3 < (calculate_recommendations clay silt sand moisture pi ph st cd).micp_strength)) ∧
    ((calculate_recommendations clay silt sand moisture pi ph st cd).final_method =
        "Hybrid" →
      (calculate_recommendations clay silt sand moisture pi ph st cd).myc_percentage =
        (adjustedDosages clay sand moisture ph st cd).1 ∧
      (calculate_recommendations clay silt sand moisture pi ph st cd).micp_percentage =
        (adjustedDosages clay sand moisture ph st cd).2) ∧
    ((calculate_recommendations clay silt sand moisture pi ph st cd).micp_strength <
        (calculate_recommendations clay silt sand moisture pi ph st cd).myc_strength ∧
      ¬(((calculate_recommendations clay silt sand moisture pi ph st cd).myc_strength ≤
            (calculate_recommendations clay silt sand moisture pi ph st cd).hybrid_strength ∧
          (calculate_recommendations clay silt sand moisture pi ph st cd).micp_strength ≤
            (calculate_recommendations clay silt sand moisture pi ph st cd).hybrid_strength) ∧
          (0.3 < (calculate_recommendations clay silt sand moisture pi ph st cd).myc_strength ∨
            0.3 < (calculate_recommendations clay silt sand moisture pi ph st cd).micp_strength)) →
      (calculate_recommendations clay silt sand moisture pi ph st cd).final_method =
          "Mycelium" ∧
        (calculate_recommendations clay silt sand moisture pi ph st cd).final_strength =
          (calculate_recommendations clay silt sand moisture pi ph st cd).myc_strength ∧
        (calculate_recommendations clay silt sand moisture pi ph st cd).micp_percentage = 0) ∧
    ((calculate_recommendations clay silt sand moisture pi ph st cd).myc_strength <
        (calculate_recommendations clay silt sand moisture pi ph st cd).micp_strength ∧
      ¬(((calculate_recommendations clay silt sand moisture pi ph st cd).myc_strength ≤
            (calculate_recommendations clay silt sand moisture pi ph st cd).hybrid_strength ∧
          (calculate_recommendations clay silt sand moisture pi ph st cd).micp_strength ≤
            (calculate_recommendations clay silt sand moisture pi ph st cd).hybrid_strength) ∧
          (0.3 < (calculate_recommendations clay silt sand moisture pi ph st cd).myc_strength ∨
            0.3 < (calculate_recommendations clay silt sand moisture pi ph st cd).micp_strength)) →
      (calculate_recommendations clay silt sand moisture pi ph st cd).final_method =
          "MICP" ∧
        (calculate_recommendations clay silt sand moisture pi ph st cd).final_strength =
          (calculate_recommendations clay silt sand moisture pi ph st cd).micp_strength ∧
        (calculate_recommendations clay silt sand moisture pi ph st cd).myc_percentage = 0) ∧
    (calculate_recommendations clay silt sand moisture pi ph st cd).myc_strength ≠
      (calculate_recommendations clay silt sand moisture pi ph st cd).micp_strength := by
  simp only [calculate_recommendations, pyMax_eq_max, gt_iff_lt,
    max_eq_right_iff, max_le_iff]
  split_ifs with h1 h2
  · exact ⟨iff_of_true rfl h1, fun _ => ⟨rfl, rfl⟩,
      fun hc => absurd h1 hc.2, fun hc => absurd h1 hc.2,
      strengths_distinct clay sand moisture ph st cd h⟩
  · exact ⟨iff_of_false (by decide : ¬("Mycelium" : String) = "Hybrid") h1,
      fun hf => absurd hf (by decide : ¬("Mycelium" : String) = "Hybrid"),
      fun _ => ⟨rfl, rfl, rfl⟩, fun hc => absurd hc.1 (lt_asymm h2),
      strengths_distinct clay sand moisture ph st cd h⟩
  · exact ⟨iff_of_false (by decide : ¬("MICP" : String) = "Hybrid") h1,
      fun hf => absurd hf (by decide : ¬("MICP" : String) = "Hybrid"),
      fun hc => absurd hc.1 h2, fun _ => ⟨rfl, rfl, rfl⟩,
      strengths_distinct clay sand moisture ph st cd h⟩

/-- C3 witness: at the default UI input (clay=58, silt=42, sand=0,
moisture=13, pi=12, ph=7, soil type "CH (Fat Clay)", curing 28 days) the
hypothesis 0 < 28 holds and the selection rule yields the Hybrid method. -/
theorem final_method_selection_witness :
    (0 : ℚ) < 28 ∧
      (calculate_recommendations 58 42 0 13 12 7 "CH (Fat Clay)" 28).final_method =
        "Hybrid" :=
  ⟨by norm_num,
    ((final_method_selection 58 42 0 13 12 7 "CH (Fat Clay)" 28 (by norm_num)).1).mpr
      (by
        norm_num [calculate_recommendations, adjustedDosages, classify,
          adjustMoisture, adjustPh, myc_strength, micp_strength, hybrid_strength,
          base_strength, pyMax,
          show pyIn "Clay" "CH (Fat Clay)" = true from by decide])⟩

/-- C5 (counterexample): `estimate_cost` does not round its result to 2
decimal places: for the Mycelium method with dosage 1/1000 and the Low
budget tier it returns 50.002, which is not a 2-decimal value. -/
theorem estimate_cost_not_rounded :
    estimate_cost "Mycelium" (1/1000) 0 "Low" ≠
      round2 (estimate_cost "Mycelium" (1/1000) 0 "Low") := by
  norm_num [estimate_cost, round2, round_eq]

/-- C5 (amended): `estimate_cost` returns the base cost looked up from the
budget tier (Low=50, Medium=100, High=200, "No Limit"=300) plus the
per-method marginal cost (Mycelium: dosage × 2, a coefficient in 2–3; MICP:
dosage × 10, a coefficient in 10–20; Hybrid: the weighted sum
myc × 1.5 + micp × 8), with no rounding applied to the returned value. -/
theorem estimate_cost_formula (myc micp : ℚ) :
    (estimate_cost "Mycelium" myc micp "Low" = 50 + myc * 2 ∧
      estimate_cost "Mycelium" myc micp "Medium" = 100 + myc * 2 ∧
      estimate_cost "Mycelium" myc micp "High" = 200 + myc * 2 ∧
      estimate_cost "Mycelium" myc micp "No Limit" = 300 + myc * 2) ∧
    (estimate_cost "MICP" myc micp "Low" = 50 + micp * 10 ∧
      estimate_cost "MICP" myc micp "Medium" = 100 + micp * 10 ∧
      estimate_cost "MICP" myc micp "High" = 200 + micp * 10 ∧
      estimate_cost "MICP" myc micp "No Limit" = 300 + micp * 10) ∧
    (estimate_cost "Hybrid" myc micp "Low" = 50 + (myc * 1.5 + micp * 8) ∧
      estimate_cost "Hybrid" myc micp "Medium" = 100 + (myc * 1.5 + micp * 8) ∧
      estimate_cost "Hybrid" myc micp "High" = 200 + (myc * 1.5 + micp * 8) ∧
      estimate_cost "Hybrid" myc micp "No Limit" = 300 + (myc * 1.5 + micp * 8)) ∧
    ((2 : ℚ) ≤ 2 ∧ (2 : ℚ) ≤ 3 ∧ (10 : ℚ) ≤ 10 ∧ (10 : ℚ) ≤ 20) := by
  refine ⟨⟨?_, ?_, ?_, ?_⟩, ⟨?_, ?_, ?_, ?_⟩, ⟨?_, ?_, ?_, ?_⟩, by norm_num⟩ <;>
    simp [estimate_cost]

/-- C6: for every method string and every fixed dosage pair, the estimated
cost strictly increases from the Low to the Medium to the High budget
tier. -/
theorem estimate_cost_budget_monotone (method : String) (myc micp : ℚ) :
    estimate_cost method myc micp "Low" < estimate_cost method myc micp "Medium" ∧
      estimate_cost method myc micp "Medium" < estimate_cost method myc micp "High" := by
  constructor <;>
  · simp [estimate_cost]
    split_ifs <;> linarith

/-- C7: for every input, the returned improvement percentage is exactly
(final_strength − 0.225) / 0.225 × 100, with 0.225 MPa the untreated-soil
baseline and final_strength the returned predicted strength. -/
theorem improvement_formula (clay silt sand moisture pi ph : ℚ)
    (soil_type : String) (curing_days : ℚ) :
    (calculate_recommendations clay silt sand moisture pi ph soil_type
        curing_days).improvement =
      ((calculate_recommendations clay silt sand moisture pi ph soil_type
          curing_days).final_strength - 0.225) / 0.225 * 100 := by
  simp only [calculate_recommendations, base_strength]

/-- C8: the calculator is total over its whole numeric input domain,
inconsistent percentages included (nothing constrains `sand` to be
non-negative): the error-checked version never takes an error branch and
returns exactly the unchecked result, for every rational input. -/
theorem calculator_total (clay silt sand moisture pi ph : ℚ)
    (soil_type : String) (curing_days : ℚ) :
    calculate_recommendations_checked clay silt sand moisture pi ph soil_type
        curing_days =
      some (calculate_recommendations clay silt sand moisture pi ph soil_type
        curing_days) := by
  norm_num [calculate_recommendations_checked, calculate_recommendations,
    adjustedDosages, safeDiv, base_strength, Option.bind]

/-- Helper for C9: for non-negative curing time the adjusted dosage pair is
componentwise non-negative, in every branch of the pipeline. -/
theorem adjustedDosages_nonneg (clay sand moisture ph : ℚ) (soil_type : String)
    (curing_days : ℚ) (h : 0 ≤ curing_days) :
    0 ≤ (adjustedDosages clay sand moisture ph soil_type curing_days).1 ∧
      0 ≤ (adjustedDosages clay sand moisture ph soil_type curing_days).2 := by
  simp only [adjustedDosages, classify, adjustMoisture, adjustPh]
  split_ifs <;> constructor <;> dsimp only <;> linarith

/-- C9: for non-negative curing time (in particular over the UI's fixed set
{3, 7, 14, 28, 56, 90}) both returned dosage fields are non-negative, and
whenever a single method is selected the unused method's dosage in the
output is exactly zero. -/
theorem dosage_nonneg_and_zeroed (clay silt sand moisture pi ph : ℚ)
    (st : String) (cd : ℚ) (h : 0 ≤ cd) :
    0 ≤ (calculate_recommendations clay silt sand moisture pi ph st cd).myc_percentage ∧
    0 ≤ (calculate_recommendations clay silt sand moisture pi ph st cd).micp_percentage ∧
    ((calculate_recommendations clay silt sand moisture pi ph st cd).final_method =
        "Mycelium" →
      (calculate_recommendations clay silt sand moisture pi ph st cd).micp_percentage = 0) ∧
    ((calculate_recommendations clay silt sand moisture pi ph st cd).final_method =
        "MICP" →
      (calculate_recommendations clay silt sand moisture pi ph st cd).myc_percentage = 0) := by
  have hnn := adjustedDosages_nonneg clay sand moisture ph st cd h
  simp only [calculate_recommendations]
  split_ifs with h1 h2
  · exact ⟨hnn.1, hnn.2,
      fun hf => absurd hf (by decide : ¬("Hybrid" : String) = "Mycelium"),
      fun hf => absurd hf (by decide : ¬("Hybrid" : String) = "MICP")⟩
  · exact ⟨hnn.1, le_rfl, fun _ => rfl,
      fun hf => absurd hf (by decide : ¬("Mycelium" : String) = "MICP")⟩
  · exact ⟨le_rfl, hnn.2,
      fun hf => absurd hf (by decide : ¬("MICP" : String) = "Mycelium"),
      fun _ => rfl⟩

/-- C9 witness: at clay=58, silt=42, sand=0, moisture=13, pi=12, ph=7, soil
type "CH (Fat Clay)" and curing 28 days, the hypothesis 0 ≤ 28 holds and the
non-negativity and zeroing conclusions hold at that input. -/
theorem dosage_nonneg_and_zeroed_witness :
    (0 : ℚ) ≤ 28 ∧
      (0 ≤ (calculate_recommendations 58 42 0 13 12 7 "CH (Fat Clay)" 28).myc_percentage ∧
        0 ≤ (calculate_recommendations 58 42 0 13 12 7 "CH (Fat Clay)" 28).micp_percentage ∧
        ((calculate_recommendations 58 42 0 13 12 7 "CH (Fat Clay)" 28).final_method =
            "Mycelium" →
          (calculate_recommendations 58 42 0 13 12 7 "CH (Fat Clay)" 28).micp_percentage = 0) ∧
        ((calculate_recommendations 58 42 0 13 12 7 "CH (Fat Clay)" 28).final_method =
            "MICP" →
          (calculate_recommendations 58 42 0 13 12 7 "CH (Fat Clay)" 28).myc_percentage = 0)) :=
  ⟨by norm_num,
    dosage_nonneg_and_zeroed 58 42 0 13 12 7 "CH (Fat Clay)" 28 (by norm_num)⟩

/-- C10: an unrecognized budget label silently defaults the base cost to 100
(the Medium value), an unrecognized method adds no marginal cost so the
result is the base cost alone, and with both unrecognized the result is
exactly 100. -/
theorem estimate_cost_defaults (myc micp : ℚ) (budget method : String) :
    ((budget ≠ "Low" ∧ budget ≠ "Medium" ∧ budget ≠ "High" ∧
        budget ≠ "No Limit") →
      estimate_cost "Mycelium" myc micp budget = 100 + myc * 2 ∧
      estimate_cost "MICP" myc micp budget = 100 + micp * 10 ∧
      estimate_cost "Hybrid" myc micp budget = 100 + (myc * 1.5 + micp * 8)) ∧
    ((method ≠ "Mycelium" ∧ method ≠ "MICP" ∧ method ≠ "Hybrid") →
      estimate_cost method myc micp "Low" = 50 ∧
      estimate_cost method myc micp "Medium" = 100 ∧
      estimate_cost method myc micp "High" = 200 ∧
      estimate_cost method myc micp "No Limit" = 300) ∧
    ((budget ≠ "Low" ∧ budget ≠ "Medium" ∧ budget ≠ "High" ∧
        budget ≠ "No Limit") ∧
      (method ≠ "Mycelium" ∧ method ≠ "MICP" ∧ method ≠ "Hybrid") →
      estimate_cost method myc micp budget = 100) := by
  refine ⟨fun hb => ?_, fun hm => ?_, fun hbm => ?_⟩
  · simp [estimate_cost, hb.1, hb.2.1, hb.2.2.1, hb.2.2.2]
  · simp [estimate_cost, hm.1, hm.2.1, hm.2.2]
  · simp [estimate_cost, hbm.1.1, hbm.1.2.1, hbm.1.2.2.1, hbm.1.2.2.2,
      hbm.2.1, hbm.2.2.1, hbm.2.2.2]

/-- C10 witness: with the unrecognized budget label "Exorbitant" and the
unrecognized method "Cement", the defaults hold at dosages (3, 4). -/
theorem estimate_cost_defaults_witness :
    estimate_cost "Mycelium" 3 4 "Exorbitant" = 100 + 3 * 2 ∧
      estimate_cost "Cement" 3 4 "Low" = 50 ∧
      estimate_cost "Cement" 3 4 "Exorbitant" = 100 := by
  have h := estimate_cost_defaults 3 4 "Exorbitant" "Cement"
  exact ⟨(h.1 (by decide)).1, (h.2.1 (by decide)).1,
    h.2.2 ⟨by decide, by decide⟩⟩

end SoilApp
